import Mathlib

/-!
Verification of the Sad Cat Fixer (Laser Tower 3000) Arduino sketch
(`sad-cat-fixer.ino`).

The sketch is a single-threaded cooperative loop over a fixed set of global
variables.  We embed it shallowly: the globals become a `State` record, each
C function becomes a Lean function on `State`, and the environment (the
millisecond clock `millis()`, the random generator `random(...)`, and the IR
receiver poll) becomes explicit parameters of the per-tick functions.

Conventions of the embedding:
* `unsigned long` (32-bit on AVR) clock values are `Nat` taken modulo
  `2 ^ 32`; additions that the C code performs on `unsigned long` are
  written with an explicit `% U32`.
* `int` variables (servo rotation, rotation speed) are `Int`; at every call
  site of the sketch their values stay far inside the AVR 16-bit `int`
  range, so no wraparound is modelled for them.
* `digitalWrite(LASER_PIN, HIGH/LOW)` is recorded in the field `laserPin`,
  `servo.write(x)` in `servoPin`, and `writeText` in `display`.
* `IrReceiver.decode()/decodedRawData` is a parameter
  `poll : Option Nat` (`none` = no input pending); the Boolean returned
  alongside the next state records whether `IrReceiver.resume()` was called
  during the tick.
* Arduino's `random(4)` is `random() % 4` in the AVR core; we model it as
  `random4 r = r % 4` applied to an arbitrary raw generator output `r`.
* `delay(...)` calls only pause; they touch no modelled state.
-/

namespace SadCatFixer

/-- Modulus of AVR `unsigned long` (32-bit) arithmetic, as used by
`millis()` and the clock checkpoints. -/
def U32 : Nat := 2 ^ 32

/-! ### Remote command codes (the `case` labels of the two switch statements) -/

def CODE_ONE : Nat := 4077715200
def CODE_TWO : Nat := 3877175040
def CODE_THREE : Nat := 2707357440
def CODE_FOUR : Nat := 4144561920
def CODE_BACK : Nat := 3141861120
def CODE_FORWARD : Nat := 3158572800
def CODE_PLAYPAUSE : Nat := 3208707840
def CODE_UP : Nat := 4127850240
def CODE_DOWN : Nat := 4161273600

/-- The command codes handled by the `switch` in `manualMode`. -/
def manualCodes : List Nat :=
  [CODE_ONE, CODE_TWO, CODE_THREE, CODE_FOUR, CODE_BACK, CODE_FORWARD,
   CODE_PLAYPAUSE]

/-- The command codes handled by the `switch` in `automaticMode`. -/
def autoCodes : List Nat := [CODE_PLAYPAUSE, CODE_UP, CODE_DOWN]

/-! ### Display words -/

/-- `const char WORD_AUTOMATIC[] = "AUTOMATIC"` (without the NUL byte). -/
def WORD_AUTOMATIC : List Char := "AUTOMATIC".toList

/-- `const char WORD_MANUAL[] = "MANUAL"` (without the NUL byte). -/
def WORD_MANUAL : List Char := "MANUAL".toList

/-- `sizeof(WORD_AUTOMATIC)/sizeof(WORD_AUTOMATIC[0])`: 9 letters + NUL. -/
def WORD_AUTOMATIC_SIZE : Nat := 10

/-- `sizeof(WORD_MANUAL)/sizeof(WORD_MANUAL[0])`: 6 letters + NUL. -/
def WORD_MANUAL_SIZE : Nat := 7

/-- `writeText(text, len)` prints `text[0 .. len-2]` on the cleared LCD;
we model the LCD contents as the printed character list. -/
def writeText (text : List Char) (len : Nat) : List Char :=
  text.take (len - 1)

/-! ### Program state (the mutable globals of the sketch) -/

/-- The mutable global variables of the sketch, plus the last values written
to the physical outputs (laser pin, servo, LCD).  The globals
`currentTime` and `randomInterval` are declared in the sketch but never
read, so they are not modelled. -/
structure State where
  /-- `int currentPreset` — index into `autoPresets`. -/
  currentPreset : Nat
  /-- `int currentServoRotation = 0`. -/
  currentServoRotation : Int
  /-- `int automaticRotationSpeed = 15`. -/
  automaticRotationSpeed : Int
  /-- `unsigned long clock1` — checkpoint for automatic preset changes. -/
  clock1 : Nat
  /-- `unsigned long clock2` — checkpoint for the auto blink presets. -/
  clock2 : Nat
  /-- `bool automatic = true`. -/
  automatic : Bool
  /-- `bool laserOn = false`. -/
  laserOn : Bool
  /-- Last level written with `digitalWrite(LASER_PIN, _)`. -/
  laserPin : Bool
  /-- Last angle written with `servo.write(_)`. -/
  servoPin : Int
  /-- Characters currently shown on the LCD (last `writeText`). -/
  display : List Char
  deriving DecidableEq, Repr

/-! ### Laser toggle and presets -/

/-- `toggleLaser()`: write the opposite level to the laser pin, then flip
the `laserOn` flag. -/
def toggleLaser (s : State) : State :=
  let s1 := if s.laserOn then { s with laserPin := false }
            else { s with laserPin := true }
  { s1 with laserOn := if s1.laserOn then false else true }

/-- `presetConstantOn()`. -/
def presetConstantOn (s : State) : State :=
  if !s.laserOn then toggleLaser s else s

/-- `presetConstantOff()`. -/
def presetConstantOff (s : State) : State :=
  if s.laserOn then toggleLaser s else s

/-- The elapsed-time gate shape used everywhere in the sketch:
`currentTime > checkpoint + delta`, computed in `unsigned long`
arithmetic (the sum wraps modulo `2 ^ 32`). -/
def plainGate (now checkpoint delta : Nat) : Bool :=
  now > (checkpoint + delta) % U32

/-- The gate the spec's interface section prescribes instead: compare the
wrapped unsigned difference `now - checkpoint` against the threshold.
(For `now, checkpoint < 2 ^ 32`, C's `now - checkpoint` on `unsigned long`
is `(now + 2 ^ 32 - checkpoint) % 2 ^ 32`.)  This definition follows the
spec's words; it is *not* what the sketch computes — see the wraparound
theorems. -/
def wrapSafeGate (now checkpoint delta : Nat) : Bool :=
  (now + U32 - checkpoint) % U32 > delta

/-- `presetAutoSlowBlink()` with the `millis()` sample passed in. -/
def presetAutoSlowBlink (now : Nat) (s : State) : State :=
  if plainGate now s.clock2 1500 then { toggleLaser s with clock2 := now }
  else s

/-- `presetAutoFastBlink()` with the `millis()` sample passed in. -/
def presetAutoFastBlink (now : Nat) (s : State) : State :=
  if plainGate now s.clock2 200 then { toggleLaser s with clock2 := now }
  else s

/-- One iteration body of the manual blink presets: two `toggleLaser`
calls separated by `delay`s (the delays touch no modelled state). -/
def blinkCycles : Nat → State → State
  | 0, s => s
  | n + 1, s => blinkCycles n (toggleLaser (toggleLaser s))

/-- `presetManualSlowBlink()`: 5 on/off cycles of 2000 ms each. -/
def presetManualSlowBlink (s : State) : State := blinkCycles 5 s

/-- `presetManualFastBlink()`: 5 on/off cycles of 500 ms each. -/
def presetManualFastBlink (s : State) : State := blinkCycles 5 s

/-- `void (*autoPresets[4])()` — the automatic preset table.  The timed
blink entries read `millis()`, so every entry takes the current time. -/
def autoPresets : List (Nat → State → State) :=
  [fun _ => presetConstantOff, fun _ => presetConstantOn,
   presetAutoSlowBlink, presetAutoFastBlink]

/-- `void (*manualPresets[4])()` — the manual preset table. -/
def manualPresets : List (State → State) :=
  [presetConstantOff, presetConstantOn,
   presetManualSlowBlink, presetManualFastBlink]

/-- `(*autoPresets[idx])()` — dispatch through the automatic preset table.
The C array access has no bounds check; the default branch stands for the
out-of-bounds dereference and is proved unreachable. -/
def applyAutoPreset (idx : Nat) (now : Nat) (s : State) : State :=
  (autoPresets.getD idx (fun _ t => t)) now s

/-! ### Rotation -/

/-- `rotateManual(degrees)`: clamp `current + degrees` into `[0, 180]`,
store it and write it to the servo. -/
def rotateManual (degrees : Int) (s : State) : State :=
  let newPosition := s.currentServoRotation + degrees
  let newPosition := if newPosition > 180 then 180 else newPosition
  let newPosition := if newPosition < 0 then 0 else newPosition
  { s with currentServoRotation := newPosition, servoPin := newPosition }

/-- `rotateAutomatic(degrees)`: force the delta positive, add, and reduce
modulo 180 with C's truncating `%` (`Int.tmod`). -/
def rotateAutomatic (degrees : Int) (s : State) : State :=
  let fixedDegrees := if degrees < 0 then -1 * degrees else degrees
  let newPosition := s.currentServoRotation + fixedDegrees
  let res := Int.tmod newPosition 180
  { s with currentServoRotation := res, servoPin := res }

/-! ### Mode functions -/

/-- Arduino `random(4)` = `random() % 4` applied to the raw generator
output `r`. -/
def random4 (r : Nat) : Nat := r % 4

/-- The body of `manualMode`'s `switch (decoded)` statement. -/
def manualDispatch (code : Nat) (s : State) : State :=
  if code = CODE_ONE then (manualPresets.getD 0 id) s
  else if code = CODE_TWO then (manualPresets.getD 1 id) s
  else if code = CODE_THREE then (manualPresets.getD 2 id) s
  else if code = CODE_FOUR then (manualPresets.getD 3 id) s
  else if code = CODE_BACK then rotateManual (-30) s
  else if code = CODE_FORWARD then rotateManual 30 s
  else if code = CODE_PLAYPAUSE then
    { s with automatic := true,
             display := writeText WORD_AUTOMATIC WORD_AUTOMATIC_SIZE }
  else s

/-- `manualMode()`: poll once; on input, dispatch and resume; otherwise do
nothing.  The Boolean records whether `IrReceiver.resume()` was called. -/
def manualMode (poll : Option Nat) (s : State) : State × Bool :=
  match poll with
  | some code => (manualDispatch code s, true)
  | none => (s, false)

/-- The 5000 ms preset-change branch of `automaticMode`: if
`currentTime > clock1 + 5000`, pick `random(4)` as the new preset and
re-arm `clock1`. -/
def presetChangeCheck (now r : Nat) (s : State) : State :=
  if plainGate now s.clock1 5000 then
    { s with currentPreset := random4 r, clock1 := now }
  else s

/-- The body of `automaticMode`'s `switch (decoded)` statement. -/
def autoDispatch (code : Nat) (s : State) : State :=
  if code = CODE_PLAYPAUSE then
    { s with automatic := false,
             display := writeText WORD_MANUAL WORD_MANUAL_SIZE }
  else if code = CODE_UP then
    let sp := s.automaticRotationSpeed + 5
    { s with automaticRotationSpeed := if sp > 45 then 45 else sp }
  else if code = CODE_DOWN then
    let sp := s.automaticRotationSpeed - 5
    { s with automaticRotationSpeed := if sp < 0 then 0 else sp }
  else s

/-- The IR block of `automaticMode` (`if (IrReceiver.decode()) { ... }`):
dispatch on input and resume.  The Boolean records the resume call. -/
def autoIrPhase (poll : Option Nat) (s : State) : State × Bool :=
  match poll with
  | some code => (autoDispatch code s, true)
  | none => (s, false)

/-- `automaticMode` up to (not including) the final preset application:
rotation, then the 5000 ms preset-change check, then the IR poll.
`now1` is the `millis()` sample taken after the rotation, `r` the raw
output of the generator behind `random(4)`. -/
def autoTickPre (now1 r : Nat) (poll : Option Nat) (s : State) :
    State × Bool :=
  autoIrPhase poll (presetChangeCheck now1 r
    (rotateAutomatic s.automaticRotationSpeed s))

/-- `automaticMode()`: rotation, preset-change check, IR poll, then
`(*autoPresets[currentPreset])()`.  `now2` is the `millis()` sample the
preset itself takes (the rotation's `delay(500)` lies between the two
samples). -/
def automaticMode (now1 now2 r : Nat) (poll : Option Nat) (s : State) :
    State × Bool :=
  let p := autoTickPre now1 r poll s
  (applyAutoPreset p.1.currentPreset now2 p.1, p.2)

/-- `loop()`: one tick of the scheduler — dispatch on the `automatic`
flag. -/
def loop (now1 now2 r : Nat) (poll : Option Nat) (s : State) :
    State × Bool :=
  if s.automatic then automaticMode now1 now2 r poll s
  else manualMode poll s

/-- `setup()`: the state after boot.  `t` is the `millis()` sample used to
initialise both clocks, `r2` the raw generator output behind the
`currentPreset = random(4)` call (the `randomInterval = random(5000,15001)`
result is never read and is not modelled).  The remaining fields carry the
globals' declaration initialisers. -/
def setup (t r2 : Nat) : State :=
  { currentPreset := random4 r2
    currentServoRotation := 0
    automaticRotationSpeed := 15
    clock1 := t % U32
    clock2 := t % U32
    automatic := true
    laserOn := false
    laserPin := false
    servoPin := 0
    display := writeText WORD_AUTOMATIC WORD_AUTOMATIC_SIZE }

/-- The states the program can be in: the boot state, or any state reached
from one by ticks of `loop` (with arbitrary clock samples, generator
outputs and IR input). -/
inductive Reachable : State → Prop where
  | boot : ∀ t r2, Reachable (setup t r2)
  | tick : ∀ s now1 now2 r poll, Reachable s →
      Reachable (loop now1 now2 r poll s).1

/-- A concrete state whose clock checkpoints sit 100 ms before the 32-bit
millisecond rollover, used to exhibit the behaviour of the time gates at
wraparound. -/
def nearRolloverState : State :=
  { setup 0 0 with clock1 := U32 - 100, clock2 := U32 - 100 }

/-- Equality of all `State` fields except `laserOn`, `laserPin` and
`clock2` (the fields the laser presets may write). -/
def NonLaserFieldsEq (s t : State) : Prop :=
  s.currentPreset = t.currentPreset ∧
  s.currentServoRotation = t.currentServoRotation ∧
  s.automaticRotationSpeed = t.automaticRotationSpeed ∧
  s.clock1 = t.clock1 ∧
  s.automatic = t.automatic ∧
  s.servoPin = t.servoPin ∧
  s.display = t.display

/-! ### Helper lemmas -/

theorem toggleLaser_fields (s : State) :
    (toggleLaser s).laserOn = !s.laserOn ∧
    (toggleLaser s).laserPin = !s.laserOn ∧
    (toggleLaser s).currentPreset = s.currentPreset ∧
    (toggleLaser s).currentServoRotation = s.currentServoRotation ∧
    (toggleLaser s).automaticRotationSpeed = s.automaticRotationSpeed ∧
    (toggleLaser s).clock1 = s.clock1 ∧
    (toggleLaser s).clock2 = s.clock2 ∧
    (toggleLaser s).automatic = s.automatic ∧
    (toggleLaser s).servoPin = s.servoPin ∧
    (toggleLaser s).display = s.display := by
  cases s with
  | mk cp csr ars c1 c2 au lo lp sp d =>
    unfold toggleLaser
    cases lo <;> simp

theorem toggleLaser_currentPreset (s : State) :
    (toggleLaser s).currentPreset = s.currentPreset :=
  (toggleLaser_fields s).2.2.1

theorem blinkCycles_currentPreset (n : Nat) (s : State) :
    (blinkCycles n s).currentPreset = s.currentPreset := by
  induction n generalizing s with
  | zero => rfl
  | succ n ih =>
    rw [blinkCycles, ih, toggleLaser_currentPreset, toggleLaser_currentPreset]

theorem presetConstantOn_currentPreset (s : State) :
    (presetConstantOn s).currentPreset = s.currentPreset := by
  unfold presetConstantOn
  split
  · exact toggleLaser_currentPreset s
  · rfl

theorem presetConstantOff_currentPreset (s : State) :
    (presetConstantOff s).currentPreset = s.currentPreset := by
  unfold presetConstantOff
  split
  · exact toggleLaser_currentPreset s
  · rfl

theorem presetAutoSlowBlink_currentPreset (now : Nat) (s : State) :
    (presetAutoSlowBlink now s).currentPreset = s.currentPreset := by
  unfold presetAutoSlowBlink
  split
  · simpa using toggleLaser_currentPreset s
  · rfl

theorem presetAutoFastBlink_currentPreset (now : Nat) (s : State) :
    (presetAutoFastBlink now s).currentPreset = s.currentPreset := by
  unfold presetAutoFastBlink
  split
  · simpa using toggleLaser_currentPreset s
  · rfl

theorem applyAutoPreset_ge_four (i now : Nat) (s : State) (h : 4 ≤ i) :
    applyAutoPreset i now s = s := by
  unfold applyAutoPreset
  rw [List.getD_eq_default]
  simpa [autoPresets] using h

theorem applyAutoPreset_currentPreset (i now : Nat) (s : State) :
    (applyAutoPreset i now s).currentPreset = s.currentPreset := by
  rcases i with _ | _ | _ | _ | n
  · simpa [applyAutoPreset, autoPresets] using presetConstantOff_currentPreset s
  · simpa [applyAutoPreset, autoPresets] using presetConstantOn_currentPreset s
  · simpa [applyAutoPreset, autoPresets] using
      presetAutoSlowBlink_currentPreset now s
  · simpa [applyAutoPreset, autoPresets] using
      presetAutoFastBlink_currentPreset now s
  · rw [applyAutoPreset_ge_four _ _ _ (by omega)]

theorem rotateManual_currentPreset (d : Int) (s : State) :
    (rotateManual d s).currentPreset = s.currentPreset := rfl

theorem rotateAutomatic_currentPreset (d : Int) (s : State) :
    (rotateAutomatic d s).currentPreset = s.currentPreset := rfl

theorem manualDispatch_currentPreset (c : Nat) (s : State) :
    (manualDispatch c s).currentPreset = s.currentPreset := by
  unfold manualDispatch
  split
  · simpa [manualPresets] using presetConstantOff_currentPreset s
  split
  · simpa [manualPresets] using presetConstantOn_currentPreset s
  split
  · simpa [manualPresets, presetManualSlowBlink] using
      blinkCycles_currentPreset 5 s
  split
  · simpa [manualPresets, presetManualFastBlink] using
      blinkCycles_currentPreset 5 s
  split
  · rfl
  split
  · rfl
  split
  · rfl
  · rfl

theorem autoDispatch_currentPreset (c : Nat) (s : State) :
    (autoDispatch c s).currentPreset = s.currentPreset := by
  unfold autoDispatch
  split
  · rfl
  split
  · rfl
  split
  · rfl
  · rfl

theorem presetChangeCheck_lt_four (now r : Nat) (s : State)
    (h : s.currentPreset < 4) :
    (presetChangeCheck now r s).currentPreset < 4 := by
  unfold presetChangeCheck
  split
  · show r % 4 < 4
    omega
  · exact h

theorem autoTickPre_lt_four (s : State) (h : s.currentPreset < 4)
    (now1 r : Nat) (poll : Option Nat) :
    (autoTickPre now1 r poll s).1.currentPreset < 4 := by
  unfold autoTickPre autoIrPhase
  have hrot : (rotateAutomatic s.automaticRotationSpeed s).currentPreset < 4 := by
    rw [rotateAutomatic_currentPreset]; exact h
  have hgate := presetChangeCheck_lt_four now1 r _ hrot
  cases poll with
  | none => exact hgate
  | some code => simpa [autoDispatch_currentPreset] using hgate

theorem rotateAutomatic_step (d : Int) (s : State)
    (h : 0 ≤ s.currentServoRotation) :
    (rotateAutomatic d s).currentServoRotation =
      (s.currentServoRotation + |d|) % 180 ∧
    0 ≤ (rotateAutomatic d s).currentServoRotation ∧
    (rotateAutomatic d s).currentServoRotation < 180 := by
  have habs : (if d < 0 then -1 * d else d) = |d| := by
    split_ifs with hd
    · rw [abs_of_neg hd]; ring
    · rw [abs_of_nonneg (not_lt.mp hd)]
  have hnn : 0 ≤ s.currentServoRotation + |d| := add_nonneg h (abs_nonneg d)
  have hres : (rotateAutomatic d s).currentServoRotation =
      (s.currentServoRotation + |d|) % 180 := by
    show Int.tmod (s.currentServoRotation + (if d < 0 then -1 * d else d)) 180 = _
    rw [habs, Int.tmod_eq_emod hnn (by norm_num)]
  refine ⟨hres, ?_, ?_⟩
  · rw [hres]; exact Int.emod_nonneg _ (by norm_num)
  · rw [hres]; exact Int.emod_lt_of_pos _ (by norm_num)

theorem rotateAutomatic_foldl (ds : List Int) (s : State)
    (h : 0 ≤ s.currentServoRotation) :
    0 ≤ (ds.foldl (fun t e => rotateAutomatic e t) s).currentServoRotation ∧
    (ds ≠ [] →
      (ds.foldl (fun t e => rotateAutomatic e t) s).currentServoRotation < 180) := by
  induction ds generalizing s with
  | nil => exact ⟨h, fun hne => absurd rfl hne⟩
  | cons e tl ih =>
    have hstep := rotateAutomatic_step e s h
    have htl := ih (rotateAutomatic e s) hstep.2.1
    cases tl with
    | nil => exact ⟨hstep.2.1, fun _ => hstep.2.2⟩
    | cons f tl2 => exact ⟨htl.1, fun _ => htl.2 (by simp)⟩

/-! ### Claim theorems -/

/-- C3: manual rotation computes `clamp(current + delta, 0, 180)` for any
delta; it saturates at both bounds (a command at a bound in the same
direction leaves the position unchanged), and FORWARD (+30) at position
170 yields exactly 180. -/
theorem C3_rotateManual_clamps (d : Int) (s : State) :
    (rotateManual d s).currentServoRotation =
      min (max (s.currentServoRotation + d) 0) 180 ∧
    (rotateManual d s).servoPin = (rotateManual d s).currentServoRotation ∧
    (rotateManual 30
      { s with currentServoRotation := 170 }).currentServoRotation = 180 ∧
    (rotateManual 30
      { s with currentServoRotation := 180 }).currentServoRotation = 180 ∧
    (rotateManual (-30)
      { s with currentServoRotation := 0 }).currentServoRotation = 0 := by
  refine ⟨?_, rfl, ?_, ?_, ?_⟩
  · show (if (if s.currentServoRotation + d > 180 then (180 : Int)
            else s.currentServoRotation + d) < 0 then (0 : Int)
          else if s.currentServoRotation + d > 180 then (180 : Int)
            else s.currentServoRotation + d) = _
    split_ifs <;> omega
  · norm_num [rotateManual]
  · norm_num [rotateManual]
  · norm_num [rotateManual]

/-- C4: automatic rotation computes `(current + |delta|) mod 180` — the
delta is forced positive, the position wraps rather than saturates, and
every sequence of automatic rotations keeps the position in `[0, 180)`. -/
theorem C4_rotateAutomatic_wraps (d : Int) (ds : List Int) (s : State)
    (h : 0 ≤ s.currentServoRotation) :
    (rotateAutomatic d s).currentServoRotation =
      (s.currentServoRotation + |d|) % 180 ∧
    0 ≤ (rotateAutomatic d s).currentServoRotation ∧
    (rotateAutomatic d s).currentServoRotation < 180 ∧
    0 ≤ (ds.foldl (fun t e => rotateAutomatic e t) s).currentServoRotation ∧
    (ds ≠ [] →
      (ds.foldl (fun t e => rotateAutomatic e t) s).currentServoRotation
        < 180) := by
  have hstep := rotateAutomatic_step d s h
  have hfold := rotateAutomatic_foldl ds s h
  exact ⟨hstep.1, hstep.2.1, hstep.2.2, hfold.1, hfold.2⟩

/-- Witness for C4 at the boot state, delta 15, sequence `[15]`. -/
theorem C4_rotateAutomatic_wraps_witness :
    0 ≤ (setup 0 0).currentServoRotation ∧
    ((rotateAutomatic 15 (setup 0 0)).currentServoRotation =
        ((setup 0 0).currentServoRotation + |(15 : Int)|) % 180 ∧
      0 ≤ (rotateAutomatic 15 (setup 0 0)).currentServoRotation ∧
      (rotateAutomatic 15 (setup 0 0)).currentServoRotation < 180 ∧
      0 ≤ (([15] : List Int).foldl (fun t e => rotateAutomatic e t)
          (setup 0 0)).currentServoRotation ∧
      (([15] : List Int) ≠ [] →
        (([15] : List Int).foldl (fun t e => rotateAutomatic e t)
            (setup 0 0)).currentServoRotation < 180)) :=
  ⟨by decide, C4_rotateAutomatic_wraps 15 [15] (setup 0 0) (by decide)⟩

theorem autoDispatch_up_speed (s : State) :
    (autoDispatch CODE_UP s).automaticRotationSpeed =
      min (s.automaticRotationSpeed + 5) 45 := by
  unfold autoDispatch
  norm_num [CODE_UP, CODE_PLAYPAUSE, CODE_DOWN]
  split_ifs <;> omega

theorem autoDispatch_down_speed (s : State) :
    (autoDispatch CODE_DOWN s).automaticRotationSpeed =
      max (s.automaticRotationSpeed - 5) 0 := by
  unfold autoDispatch
  norm_num [CODE_UP, CODE_PLAYPAUSE, CODE_DOWN]
  split_ifs <;> omega

theorem autoDispatch_speed_invariant (c : Nat) (s : State)
    (h0 : 0 ≤ s.automaticRotationSpeed)
    (h45 : s.automaticRotationSpeed ≤ 45) :
    0 ≤ (autoDispatch c s).automaticRotationSpeed ∧
    (autoDispatch c s).automaticRotationSpeed ≤ 45 := by
  unfold autoDispatch
  split_ifs <;> simp_all <;> omega

theorem autoDispatch_speed_foldl (cmds : List Nat) (s : State)
    (h0 : 0 ≤ s.automaticRotationSpeed)
    (h45 : s.automaticRotationSpeed ≤ 45) :
    0 ≤ (cmds.foldl (fun t c => autoDispatch c t) s).automaticRotationSpeed ∧
    (cmds.foldl (fun t c => autoDispatch c t) s).automaticRotationSpeed
      ≤ 45 := by
  induction cmds generalizing s with
  | nil => exact ⟨h0, h45⟩
  | cons c tl ih =>
    have hstep := autoDispatch_speed_invariant c s h0 h45
    exact ih (autoDispatch c s) hstep.1 hstep.2

theorem up_iterate_fixed (n : Nat) (t : State)
    (h : t.automaticRotationSpeed = 45) :
    ((fun u => autoDispatch CODE_UP u)^[n] t).automaticRotationSpeed
      = 45 := by
  induction n generalizing t with
  | zero => simpa using h
  | succ n ih =>
    rw [Function.iterate_succ_apply]
    exact ih _ (by rw [autoDispatch_up_speed, h]; norm_num)

theorem down_iterate_fixed (n : Nat) (t : State)
    (h : t.automaticRotationSpeed = 0) :
    ((fun u => autoDispatch CODE_DOWN u)^[n] t).automaticRotationSpeed
      = 0 := by
  induction n generalizing t with
  | zero => simpa using h
  | succ n ih =>
    rw [Function.iterate_succ_apply]
    exact ih _ (by rw [autoDispatch_down_speed, h]; norm_num)

/-- C5: the speed-up command sets the speed to `min(speed+5, 45)`, the
speed-down command to `max(speed-5, 0)`; every sequence of such commands
keeps the speed in `[0, 45]`, repeated increments from 45 stay at 45, and
repeated decrements from 0 stay at 0. -/
theorem C5_automaticSpeed_bounds (s : State) (cmds : List Nat) (n : Nat)
    (h0 : 0 ≤ s.automaticRotationSpeed)
    (h45 : s.automaticRotationSpeed ≤ 45) :
    (autoDispatch CODE_UP s).automaticRotationSpeed =
      min (s.automaticRotationSpeed + 5) 45 ∧
    (autoDispatch CODE_DOWN s).automaticRotationSpeed =
      max (s.automaticRotationSpeed - 5) 0 ∧
    0 ≤ (cmds.foldl (fun t c => autoDispatch c t) s).automaticRotationSpeed ∧
    (cmds.foldl (fun t c => autoDispatch c t) s).automaticRotationSpeed
      ≤ 45 ∧
    ((fun u => autoDispatch CODE_UP u)^[n]
        { s with automaticRotationSpeed := 45 }).automaticRotationSpeed
      = 45 ∧
    ((fun u => autoDispatch CODE_DOWN u)^[n]
        { s with automaticRotationSpeed := 0 }).automaticRotationSpeed
      = 0 := by
  have hfold := autoDispatch_speed_foldl cmds s h0 h45
  exact ⟨autoDispatch_up_speed s, autoDispatch_down_speed s,
    hfold.1, hfold.2, up_iterate_fixed n _ rfl, down_iterate_fixed n _ rfl⟩

/-- Witness for C5 at the boot state (speed 15), commands
`[UP, DOWN, DOWN]`, three iterations. -/
theorem C5_automaticSpeed_bounds_witness :
    0 ≤ (setup 0 0).automaticRotationSpeed ∧
    (setup 0 0).automaticRotationSpeed ≤ 45 ∧
    ((autoDispatch CODE_UP (setup 0 0)).automaticRotationSpeed =
        min ((setup 0 0).automaticRotationSpeed + 5) 45 ∧
      (autoDispatch CODE_DOWN (setup 0 0)).automaticRotationSpeed =
        max ((setup 0 0).automaticRotationSpeed - 5) 0 ∧
      0 ≤ (([CODE_UP, CODE_DOWN, CODE_DOWN].foldl
          (fun t c => autoDispatch c t) (setup 0 0)).automaticRotationSpeed) ∧
      (([CODE_UP, CODE_DOWN, CODE_DOWN].foldl
          (fun t c => autoDispatch c t) (setup 0 0)).automaticRotationSpeed)
        ≤ 45 ∧
      ((fun u => autoDispatch CODE_UP u)^[3]
          { setup 0 0 with
              automaticRotationSpeed := 45 }).automaticRotationSpeed = 45 ∧
      ((fun u => autoDispatch CODE_DOWN u)^[3]
          { setup 0 0 with
              automaticRotationSpeed := 0 }).automaticRotationSpeed = 0) :=
  ⟨by decide, by decide,
    C5_automaticSpeed_bounds (setup 0 0) [CODE_UP, CODE_DOWN, CODE_DOWN] 3
      (by decide) (by decide)⟩

/-- C9: toggling the laser twice from any state restores the original
`laserOn` flag; each single toggle flips the flag and writes the matching
level to the laser pin, so the flag mirrors the last physical write. -/
theorem C9_toggleLaser_pair_and_mirror (s : State) :
    (toggleLaser (toggleLaser s)).laserOn = s.laserOn ∧
    (toggleLaser s).laserOn = !s.laserOn ∧
    (toggleLaser s).laserPin = !s.laserOn ∧
    (toggleLaser s).laserPin = (toggleLaser s).laserOn := by
  have hf := toggleLaser_fields s
  have hf2 := toggleLaser_fields (toggleLaser s)
  refine ⟨?_, hf.1, hf.2.1, ?_⟩
  · rw [hf2.1, hf.1, Bool.not_not]
  · rw [hf.2.1, hf.1]

theorem manualDispatch_unknown (c : Nat) (s : State) (h : c ∉ manualCodes) :
    manualDispatch c s = s := by
  simp only [manualCodes, List.mem_cons, List.not_mem_nil, or_false,
    not_or] at h
  obtain ⟨h1, h2, h3, h4, h5, h6, h7⟩ := h
  simp [manualDispatch, h1, h2, h3, h4, h5, h6, h7]

theorem autoDispatch_unknown (c : Nat) (s : State) (h : c ∉ autoCodes) :
    autoDispatch c s = s := by
  simp only [autoCodes, List.mem_cons, List.not_mem_nil, or_false,
    not_or] at h
  obtain ⟨h1, h2, h3⟩ := h
  simp [autoDispatch, h1, h2, h3]

theorem autoDispatch_playPause (s : State) :
    autoDispatch CODE_PLAYPAUSE s =
      { s with automatic := false,
               display := writeText WORD_MANUAL WORD_MANUAL_SIZE } := by
  simp [autoDispatch]

theorem manualDispatch_playPause (s : State) :
    manualDispatch CODE_PLAYPAUSE s =
      { s with automatic := true,
               display := writeText WORD_AUTOMATIC WORD_AUTOMATIC_SIZE } := by
  norm_num [manualDispatch, CODE_PLAYPAUSE, CODE_ONE, CODE_TWO, CODE_THREE,
    CODE_FOUR, CODE_BACK, CODE_FORWARD]

theorem plainGate_no_wrap (now cp delta : Nat) (h1 : cp + delta < U32) :
    plainGate now cp delta = decide (delta < now - cp) := by
  unfold plainGate
  rw [decide_eq_decide]
  simp only [U32] at h1 ⊢
  omega

theorem plainGate_eq_wrapSafe (now cp delta : Nat) (h1 : cp + delta < U32)
    (h2 : cp ≤ now) (h3 : now < U32) :
    plainGate now cp delta = wrapSafeGate now cp delta := by
  unfold plainGate wrapSafeGate
  rw [decide_eq_decide]
  simp only [U32] at h1 h3 ⊢
  omega

theorem nonLaser_refl (s : State) : NonLaserFieldsEq s s :=
  ⟨rfl, rfl, rfl, rfl, rfl, rfl, rfl⟩

theorem nonLaser_trans {a b c : State} (h1 : NonLaserFieldsEq a b)
    (h2 : NonLaserFieldsEq b c) : NonLaserFieldsEq a c := by
  unfold NonLaserFieldsEq at *
  obtain ⟨x1, x2, x3, x4, x5, x6, x7⟩ := h1
  obtain ⟨y1, y2, y3, y4, y5, y6, y7⟩ := h2
  exact ⟨x1.trans y1, x2.trans y2, x3.trans y3, x4.trans y4, x5.trans y5,
    x6.trans y6, x7.trans y7⟩

theorem toggleLaser_nonLaser (s : State) :
    NonLaserFieldsEq (toggleLaser s) s := by
  cases s with
  | mk cp csr ars c1 c2 au lo lp sp d =>
    unfold toggleLaser NonLaserFieldsEq
    cases lo <;> simp

theorem presetConstantOn_nonLaser (s : State) :
    NonLaserFieldsEq (presetConstantOn s) s := by
  unfold presetConstantOn
  split
  · exact toggleLaser_nonLaser s
  · exact nonLaser_refl s

theorem presetConstantOff_nonLaser (s : State) :
    NonLaserFieldsEq (presetConstantOff s) s := by
  unfold presetConstantOff
  split
  · exact toggleLaser_nonLaser s
  · exact nonLaser_refl s

theorem presetAutoSlowBlink_nonLaser (now : Nat) (s : State) :
    NonLaserFieldsEq (presetAutoSlowBlink now s) s := by
  unfold presetAutoSlowBlink
  split
  · exact nonLaser_trans (nonLaser_refl _) (toggleLaser_nonLaser s)
  · exact nonLaser_refl s

theorem presetAutoFastBlink_nonLaser (now : Nat) (s : State) :
    NonLaserFieldsEq (presetAutoFastBlink now s) s := by
  unfold presetAutoFastBlink
  split
  · exact nonLaser_trans (nonLaser_refl _) (toggleLaser_nonLaser s)
  · exact nonLaser_refl s

theorem applyAutoPreset_nonLaser (i now : Nat) (s : State) :
    NonLaserFieldsEq (applyAutoPreset i now s) s := by
  rcases i with _ | _ | _ | _ | n
  · simpa [applyAutoPreset, autoPresets] using presetConstantOff_nonLaser s
  · simpa [applyAutoPreset, autoPresets] using presetConstantOn_nonLaser s
  · simpa [applyAutoPreset, autoPresets] using
      presetAutoSlowBlink_nonLaser now s
  · simpa [applyAutoPreset, autoPresets] using
      presetAutoFastBlink_nonLaser now s
  · rw [applyAutoPreset_ge_four _ _ _ (by omega)]
    exact nonLaser_refl s

theorem presetConstantOn_mode_display (t : State) (a : Bool)
    (d : List Char) :
    presetConstantOn { t with automatic := a, display := d } =
      { presetConstantOn t with automatic := a, display := d } := by
  cases t with
  | mk cp csr ars c1 c2 au lo lp sp dis =>
    unfold presetConstantOn toggleLaser
    cases lo <;> rfl

theorem presetConstantOff_mode_display (t : State) (a : Bool)
    (d : List Char) :
    presetConstantOff { t with automatic := a, display := d } =
      { presetConstantOff t with automatic := a, display := d } := by
  cases t with
  | mk cp csr ars c1 c2 au lo lp sp dis =>
    unfold presetConstantOff toggleLaser
    cases lo <;> rfl

theorem presetAutoSlowBlink_mode_display (now : Nat) (t : State) (a : Bool)
    (d : List Char) :
    presetAutoSlowBlink now { t with automatic := a, display := d } =
      { presetAutoSlowBlink now t with automatic := a, display := d } := by
  cases t with
  | mk cp csr ars c1 c2 au lo lp sp dis =>
    unfold presetAutoSlowBlink
    cases h : plainGate now c2 1500
    · rfl
    · unfold toggleLaser
      cases lo <;> rfl

theorem presetAutoFastBlink_mode_display (now : Nat) (t : State) (a : Bool)
    (d : List Char) :
    presetAutoFastBlink now { t with automatic := a, display := d } =
      { presetAutoFastBlink now t with automatic := a, display := d } := by
  cases t with
  | mk cp csr ars c1 c2 au lo lp sp dis =>
    unfold presetAutoFastBlink
    cases h : plainGate now c2 200
    · rfl
    · unfold toggleLaser
      cases lo <;> rfl

theorem applyAutoPreset_mode_display (i now : Nat) (t : State) (a : Bool)
    (d : List Char) :
    applyAutoPreset i now { t with automatic := a, display := d } =
      { applyAutoPreset i now t with automatic := a, display := d } := by
  rcases i with _ | _ | _ | _ | n
  · simpa [applyAutoPreset, autoPresets] using
      presetConstantOff_mode_display t a d
  · simpa [applyAutoPreset, autoPresets] using
      presetConstantOn_mode_display t a d
  · simpa [applyAutoPreset, autoPresets] using
      presetAutoSlowBlink_mode_display now t a d
  · simpa [applyAutoPreset, autoPresets] using
      presetAutoFastBlink_mode_display now t a d
  · rw [applyAutoPreset_ge_four _ _ _ (by omega),
      applyAutoPreset_ge_four _ _ _ (by omega)]

/-- C2 counterexample: the sketch's gates use the plain comparison
`now > checkpoint + delta`, not the unsigned-difference check.  With the
checkpoints 100 ms before the 32-bit rollover and only 10 ms elapsed, all
three gates fire (they re-arm their clocks) although the
unsigned-difference check says the thresholds (5000/1500/200 ms) have not
passed. -/
theorem C2_plain_comparison_counterexample :
    plainGate (U32 - 90) (U32 - 100) 5000 = true ∧
    wrapSafeGate (U32 - 90) (U32 - 100) 5000 = false ∧
    (presetChangeCheck (U32 - 90) 0 nearRolloverState).clock1 = U32 - 90 ∧
    (presetAutoSlowBlink (U32 - 90) nearRolloverState).clock2 = U32 - 90 ∧
    (presetAutoFastBlink (U32 - 90) nearRolloverState).clock2 = U32 - 90 ∧
    wrapSafeGate (U32 - 90) (U32 - 100) 1500 = false ∧
    wrapSafeGate (U32 - 90) (U32 - 100) 200 = false := by
  decide

/-- C2 amended: all three elapsed-time gates (5000 ms preset change,
1500 ms and 200 ms blink) use the plain comparison
`now > (checkpoint + delta) % 2^32`.  In the wrap-free regime — when
`checkpoint + delta` does not overflow and `checkpoint ≤ now < 2^32` —
this coincides with the unsigned-difference comparison
`now - checkpoint > delta`, but the two disagree at clock wraparound. -/
theorem C2_gates_plain_agree_until_wrap (s : State) (now cp delta r : Nat)
    (h1 : cp + delta < U32) (h2 : cp ≤ now) (h3 : now < U32) :
    plainGate now cp delta = wrapSafeGate now cp delta ∧
    plainGate now cp delta = decide (delta < now - cp) ∧
    presetChangeCheck now r s =
      (if plainGate now s.clock1 5000 then
        { s with currentPreset := random4 r, clock1 := now } else s) ∧
    presetAutoSlowBlink now s =
      (if plainGate now s.clock2 1500 then
        { toggleLaser s with clock2 := now } else s) ∧
    presetAutoFastBlink now s =
      (if plainGate now s.clock2 200 then
        { toggleLaser s with clock2 := now } else s) :=
  ⟨plainGate_eq_wrapSafe now cp delta h1 h2 h3,
   plainGate_no_wrap now cp delta h1, rfl, rfl, rfl⟩

/-- Witness for the amended C2 in the wrap-free regime
(`cp = 1000`, `now = 7000`, `delta = 5000`). -/
theorem C2_gates_plain_agree_until_wrap_witness :
    1000 + 5000 < U32 ∧ 1000 ≤ 7000 ∧ 7000 < U32 ∧
    (plainGate 7000 1000 5000 = wrapSafeGate 7000 1000 5000 ∧
      plainGate 7000 1000 5000 = decide (5000 < 7000 - 1000) ∧
      presetChangeCheck 7000 3 (setup 0 0) =
        (if plainGate 7000 (setup 0 0).clock1 5000 then
          { setup 0 0 with currentPreset := random4 3, clock1 := 7000 }
         else setup 0 0) ∧
      presetAutoSlowBlink 7000 (setup 0 0) =
        (if plainGate 7000 (setup 0 0).clock2 1500 then
          { toggleLaser (setup 0 0) with clock2 := 7000 }
         else setup 0 0) ∧
      presetAutoFastBlink 7000 (setup 0 0) =
        (if plainGate 7000 (setup 0 0).clock2 200 then
          { toggleLaser (setup 0 0) with clock2 := 7000 }
         else setup 0 0)) :=
  ⟨by decide, by decide, by decide,
   C2_gates_plain_agree_until_wrap (setup 0 0) 7000 1000 5000 3
     (by decide) (by decide) (by decide)⟩

theorem random4_uniform (k v : Nat) (hv : v < 4) :
    ((Finset.range (4 * k)).filter (fun x => random4 x = v)).card = k := by
  have himg : (Finset.range (4 * k)).filter (fun x => random4 x = v) =
      (Finset.range k).image (fun i => 4 * i + v) := by
    ext x
    simp only [Finset.mem_filter, Finset.mem_range, Finset.mem_image,
      random4]
    constructor
    · intro hx
      exact ⟨x / 4, by omega, by omega⟩
    · intro hx
      obtain ⟨i, hi, hix⟩ := hx
      omega
  rw [himg, Finset.card_image_of_injective _ (fun a b hab => by omega)]
  exact Finset.card_range k

/-- C6: in an automatic tick, when more than 5000 ms have elapsed since
the `clock1` checkpoint (stated in the wrap-free regime), a new preset
index is drawn as `random(4)` — always in `{0,1,2,3}`, and uniformly so:
over any aligned block of raw generator outputs each index has the same
number of preimages — and the checkpoint is re-armed to `now`;
otherwise neither the index nor the checkpoint changes. -/
theorem C6_presetChange_behaviour (s : State) (now r v k : Nat)
    (h1 : s.clock1 + 5000 < U32) (_h2 : now < U32) (hv : v < 4) :
    (5000 < now - s.clock1 →
      presetChangeCheck now r s =
        { s with currentPreset := random4 r, clock1 := now } ∧
      random4 r < 4) ∧
    (¬ 5000 < now - s.clock1 → presetChangeCheck now r s = s) ∧
    random4 v = v ∧
    ((Finset.range (4 * k)).filter (fun x => random4 x = v)).card = k := by
  have hg := plainGate_no_wrap now s.clock1 5000 h1
  refine ⟨fun hlt => ⟨?_, ?_⟩, fun hnlt => ?_, ?_, random4_uniform k v hv⟩
  · simp [presetChangeCheck, hg, hlt]
  · show r % 4 < 4
    omega
  · simp [presetChangeCheck, hg, hnlt]
  · show v % 4 = v
    omega

/-- Witness for C6: boot state (checkpoint 0), `now = 6000`, raw random
output 7 (preset index 3), `v = 2`. -/
theorem C6_presetChange_behaviour_witness :
    (setup 0 0).clock1 + 5000 < U32 ∧ 6000 < U32 ∧ 2 < 4 ∧
    ((5000 < 6000 - (setup 0 0).clock1 →
        presetChangeCheck 6000 7 (setup 0 0) =
          { setup 0 0 with currentPreset := random4 7, clock1 := 6000 } ∧
        random4 7 < 4) ∧
      (¬ 5000 < 6000 - (setup 0 0).clock1 →
        presetChangeCheck 6000 7 (setup 0 0) = setup 0 0) ∧
      random4 2 = 2 ∧
      ((Finset.range (4 * 5)).filter (fun x => random4 x = 2)).card = 5) :=
  ⟨by decide, by decide, by decide,
   C6_presetChange_behaviour (setup 0 0) 6000 7 2 5 (by decide) (by decide)
     (by decide)⟩

/-- C7: a command code outside the mapped set changes no state field in
either mode while `resume` is still called, and in manual mode an empty
poll makes the whole tick a no-op. -/
theorem C7_unrecognized_noop (s : State) (c now1 now2 r : Nat)
    (hm : c ∉ manualCodes) (ha : c ∉ autoCodes) :
    manualMode (some c) s = (s, true) ∧
    manualMode none s = (s, false) ∧
    (automaticMode now1 now2 r (some c) s).1 =
      (automaticMode now1 now2 r none s).1 ∧
    (automaticMode now1 now2 r (some c) s).2 = true := by
  have hmd := manualDispatch_unknown c s hm
  refine ⟨?_, rfl, ?_, rfl⟩
  · simp [manualMode, hmd]
  · unfold automaticMode autoTickPre autoIrPhase
    simp [autoDispatch_unknown c _ ha]

/-- Witness for C7 with the unmapped code 0 at the boot state. -/
theorem C7_unrecognized_noop_witness :
    (0 : Nat) ∉ manualCodes ∧ (0 : Nat) ∉ autoCodes ∧
    (manualMode (some 0) (setup 0 0) = (setup 0 0, true) ∧
      manualMode none (setup 0 0) = (setup 0 0, false) ∧
      (automaticMode 1 2 3 (some 0) (setup 0 0)).1 =
        (automaticMode 1 2 3 none (setup 0 0)).1 ∧
      (automaticMode 1 2 3 (some 0) (setup 0 0)).2 = true) :=
  ⟨by decide, by decide,
   C7_unrecognized_noop (setup 0 0) 0 1 2 3 (by decide) (by decide)⟩

/-- C8: the PLAY/PAUSE dispatch (in either direction) changes only the
mode flag and the displayed label; preset index, servo position, laser
state and speed are untouched, and an AUTOMATIC→MANUAL→AUTOMATIC round
trip with no intervening command restores the state exactly. -/
theorem C8_playPause_frame (s : State) :
    autoDispatch CODE_PLAYPAUSE s =
      { s with automatic := false,
               display := writeText WORD_MANUAL WORD_MANUAL_SIZE } ∧
    manualDispatch CODE_PLAYPAUSE s =
      { s with automatic := true,
               display := writeText WORD_AUTOMATIC WORD_AUTOMATIC_SIZE } ∧
    manualDispatch CODE_PLAYPAUSE (autoDispatch CODE_PLAYPAUSE
        { s with automatic := true,
                 display := writeText WORD_AUTOMATIC WORD_AUTOMATIC_SIZE }) =
      { s with automatic := true,
               display := writeText WORD_AUTOMATIC WORD_AUTOMATIC_SIZE } := by
  refine ⟨autoDispatch_playPause s, manualDispatch_playPause s, ?_⟩
  rw [autoDispatch_playPause, manualDispatch_playPause]

/-- C1: an automatic tick is the fixed pipeline rotation → 5000 ms
preset-change check → IR poll → preset application; when PLAY/PAUSE
arrives during the tick, the mode flag and label switch to MANUAL, yet
the tick's selected preset is still applied (the laser- and
preset-related outcome equals that of the same tick without any command),
and the switch takes effect only at the next scheduler tick, which
dispatches to `manualMode`. -/
theorem C1_auto_tick_order_and_switch (s : State) (now1 now2 r : Nat) :
    (∀ poll, automaticMode now1 now2 r poll s =
      (applyAutoPreset
          (autoIrPhase poll (presetChangeCheck now1 r
            (rotateAutomatic s.automaticRotationSpeed s))).1.currentPreset
          now2
          (autoIrPhase poll (presetChangeCheck now1 r
            (rotateAutomatic s.automaticRotationSpeed s))).1,
        (autoIrPhase poll (presetChangeCheck now1 r
            (rotateAutomatic s.automaticRotationSpeed s))).2)) ∧
    (automaticMode now1 now2 r (some CODE_PLAYPAUSE) s).1.automatic
      = false ∧
    (automaticMode now1 now2 r (some CODE_PLAYPAUSE) s).1.display =
      writeText WORD_MANUAL WORD_MANUAL_SIZE ∧
    (automaticMode now1 now2 r (some CODE_PLAYPAUSE) s).1.laserOn =
      (automaticMode now1 now2 r none s).1.laserOn ∧
    (automaticMode now1 now2 r (some CODE_PLAYPAUSE) s).1.laserPin =
      (automaticMode now1 now2 r none s).1.laserPin ∧
    (automaticMode now1 now2 r (some CODE_PLAYPAUSE) s).1.currentPreset =
      (automaticMode now1 now2 r none s).1.currentPreset ∧
    (automaticMode now1 now2 r (some CODE_PLAYPAUSE) s).1.servoPin =
      (automaticMode now1 now2 r none s).1.servoPin ∧
    (∀ now1A now2A rA pollA,
      loop now1A now2A rA pollA
          (automaticMode now1 now2 r (some CODE_PLAYPAUSE) s).1 =
        manualMode pollA
          (automaticMode now1 now2 r (some CODE_PLAYPAUSE) s).1) ∧
    (∀ poll, loop now1 now2 r poll { s with automatic := true } =
      automaticMode now1 now2 r poll { s with automatic := true }) := by
  have hPP : (automaticMode now1 now2 r (some CODE_PLAYPAUSE) s).1 =
      { applyAutoPreset
          (presetChangeCheck now1 r
            (rotateAutomatic s.automaticRotationSpeed s)).currentPreset
          now2
          (presetChangeCheck now1 r
            (rotateAutomatic s.automaticRotationSpeed s)) with
        automatic := false,
        display := writeText WORD_MANUAL WORD_MANUAL_SIZE } := by
    show applyAutoPreset
        (autoDispatch CODE_PLAYPAUSE (presetChangeCheck now1 r
          (rotateAutomatic s.automaticRotationSpeed s))).currentPreset now2
        (autoDispatch CODE_PLAYPAUSE (presetChangeCheck now1 r
          (rotateAutomatic s.automaticRotationSpeed s))) = _
    rw [autoDispatch_playPause]
    exact applyAutoPreset_mode_display _ now2 _ false _
  have hfa : (automaticMode now1 now2 r
      (some CODE_PLAYPAUSE) s).1.automatic = false := by
    rw [hPP]
  refine ⟨fun _ => rfl, hfa, ?_, ?_, ?_, ?_, ?_, ?_, fun _ => rfl⟩
  · rw [hPP]
  · rw [hPP]
    rfl
  · rw [hPP]
    rfl
  · rw [hPP]
    rfl
  · rw [hPP]
    rfl
  · intro now1A now2A rA pollA
    simp [loop, hfa]

theorem loop_preserves_lt_four (s : State) (now1 now2 r : Nat)
    (poll : Option Nat) (h : s.currentPreset < 4) :
    (loop now1 now2 r poll s).1.currentPreset < 4 := by
  unfold loop
  split
  · calc (automaticMode now1 now2 r poll s).1.currentPreset
        = (autoTickPre now1 r poll s).1.currentPreset :=
          applyAutoPreset_currentPreset _ now2 _
      _ < 4 := autoTickPre_lt_four s h now1 r poll
  · cases poll with
    | some c =>
      show (manualDispatch c s).currentPreset < 4
      rw [manualDispatch_currentPreset]
      exact h
    | none => exact h

theorem reachable_lt_four (s : State) (hs : Reachable s) :
    s.currentPreset < 4 := by
  induction hs with
  | boot t r2 =>
    show r2 % 4 < 4
    omega
  | tick s now1 now2 r poll _ ih =>
    exact loop_preserves_lt_four s now1 now2 r poll ih

/-- C10: on every reachable state, `currentPreset` is in `[0, 3]` — it is
only ever assigned by `random(4)` — and in particular the index used to
dereference the 4-entry `autoPresets` table during an automatic tick is
in bounds. -/
theorem C10_autoPresets_index_in_bounds (s : State) (hs : Reachable s) :
    s.currentPreset < 4 ∧
    ∀ now1 r poll, (autoTickPre now1 r poll s).1.currentPreset < 4 := by
  have h := reachable_lt_four s hs
  exact ⟨h, fun now1 r poll => autoTickPre_lt_four s h now1 r poll⟩

/-- Witness for C10 at the boot state (reachable by construction), with a
sample tick prefix. -/
theorem C10_autoPresets_index_in_bounds_witness :
    (setup 0 0).currentPreset < 4 ∧
    (autoTickPre 1 2 none (setup 0 0)).1.currentPreset < 4 :=
  ⟨(C10_autoPresets_index_in_bounds (setup 0 0) (Reachable.boot 0 0)).1,
   (C10_autoPresets_index_in_bounds (setup 0 0) (Reachable.boot 0 0)).2
     1 2 none⟩

end SadCatFixer
